import Mathlib

/-!
Verification of the becky weather service's data store and history/forecast
synchronization logic, shallowly embedded from the TypeScript sources
(`src/database.mts`, `src/weather_loader.mts`, and the bot socket module
holding `_updateForecast`, `_summarizeWeatherHistory`, `_whereToGo` and
`badWeatherHistory`).

Modelling conventions:
* Unix timestamps are `Int` seconds (`Milliseconds.HOUR = 3600` in the source
  is in fact seconds, per its own comment).
* Weather quantities (temperature, rain/snow millimetres) are `Rat`.
* The relational store is a `Store` of three tables held as lists in
  insertion order; SQL scans are list filters, `MAX`/`MIN` are `List.max?` /
  `List.min?`.
* JavaScript `async`/`await` sequencing becomes explicit state passing: an
  operation returns `Store × Option Err`; the returned store reflects every
  write committed before the error (each single-row insert commits on its
  own), and a thrown error is `some e`.  The `setForecast` transaction
  returns the *original* store on error (rollback).
* JavaScript truthiness/optional-chain comparisons on possibly-`undefined`
  numbers are modelled by `jsTruthy`, `jsLtOpt`, `jsGtOpt` (`undefined`
  compares false).
* The OpenWeather client is an abstract record of its two lookups; a non-200
  response is `Err.providerError`.
-/

namespace Becky

/-- Error outcomes visible to the core: a unique-key (primary key) violation
raised by the store, or a provider (OpenWeather) failure. -/
inductive Err where
  | uniqueViolation
  | providerError
  deriving DecidableEq, Repr

/-- The part of an OpenWeather `CurrentWeather` observation that the store
persists in its own columns: `temp`, and the optional `rain['1h']` /
`snow['1h']` rates (the remaining meteorological fields only ride along
inside the JSON blob and never influence control flow, so they are elided
from the blob model). -/
structure Weather where
  temp : Rat
  rain : Option Rat
  snow : Option Rat
  deriving DecidableEq, Repr

/-- One hour of an OpenWeather forecast (`HourWeather`): timestamp `dt`,
`temp`, and the optional `rain['1h']` / `snow['1h']` values. -/
structure HourWeather where
  dt : Int
  temp : Rat
  rain : Option Rat
  snow : Option Rat
  deriving DecidableEq, Repr

/-- `HistoryResponse` of the timemachine endpoint: `data` is typed as a
one-element tuple `[ CurrentWeather ]` in the source, so the single
observation `data[0]` is modelled directly. -/
structure HistoryResponse where
  data : Weather
  deriving DecidableEq, Repr

/-- `ForecastResponse` of the onecall endpoint: only the optional `hourly`
array is consumed by the core. -/
structure ForecastResponse where
  hourly : Option (List HourWeather)
  deriving DecidableEq, Repr

/-- The abstract OpenWeather client: `getHistorical(lat, lon, dt)` and
`getForecast(lat, lon)`; either call may fail with a provider error. -/
structure OpenWeatherApi where
  getHistorical : Rat → Rat → Int → Except Err HistoryResponse
  getForecast : Rat → Rat → Except Err ForecastResponse

/-- A row of the `locations` table. -/
structure LocationRow where
  id : String
  name : String
  lat : Rat
  lon : Rat
  deriving DecidableEq, Repr

/-- A row of `weather_hourly_history`: key `(locationId, time)`, the JSON
observation blob, and the extracted `temperature` / `rain_mm` / `snow_mm`
columns. -/
structure HistoryRow where
  locationId : String
  time : Int
  weather : Weather
  temperature : Rat
  rain_mm : Rat
  snow_mm : Rat
  deriving DecidableEq, Repr

/-- A row of `weather_hourly_forecast`: key `(locationId, time)`, the JSON
forecast blob, and the extracted columns. -/
structure ForecastRow where
  locationId : String
  time : Int
  forecast : HourWeather
  temperature : Rat
  rain_mm : Rat
  snow_mm : Rat
  deriving DecidableEq, Repr

/-- The durable store: the three tables, each in storage (insertion) order. -/
structure Store where
  locations : List LocationRow
  history : List HistoryRow
  forecast : List ForecastRow
  deriving DecidableEq, Repr

/-- The `Location` projection produced by `selectLocationQuery`: the base row
joined with the derived `lastWeatherTime` / `oldestForecastTime`, either of
which may be absent (`undefined`). -/
structure Location where
  id : String
  name : String
  lat : Rat
  lon : Rat
  lastWeatherTime : Option Int
  oldestForecastTime : Option Int
  deriving DecidableEq, Repr

/-- JavaScript truthiness of a possibly-`undefined` number: `undefined` and
`0` are falsy. -/
def jsTruthy : Option Int → Bool
  | none => false
  | some v => v ≠ 0

/-- JavaScript `<` on possibly-`undefined` numbers: any comparison involving
`undefined` is false. -/
def jsLtOpt : Option Int → Option Int → Bool
  | some a, some b => a < b
  | _, _ => false

/-- JavaScript `>` between a possibly-`undefined` number and a number:
`undefined > b` is false. -/
def jsGtOpt : Option Int → Int → Bool
  | none, _ => false
  | some a, b => b < a

/-- JavaScript truthiness of a number (`if (rain.month)`). -/
def jsTruthyQ (q : Rat) : Bool := q ≠ 0

/-- JavaScript `>` between a possibly-`undefined` rational and a rational
(`rain?.day > 10`): `undefined` compares false. -/
def jsGtOptQ : Option Rat → Rat → Bool
  | none, _ => false
  | some a, b => b < a

/-- One hour, in seconds (the source's `Milliseconds.HOUR = 3600`, which its
own comment notes is seconds). -/
def HOUR : Int := 3600

/-- `MAX_FETCH_WINDOW = 48 * HOUR`. -/
def MAX_FETCH_WINDOW : Int := 48 * HOUR

/-- `hourStart()`: the Unix timestamp of the beginning of the current hour
(`dayjs().minute(0).second(0).unix()`), as a function of the current time
`now` in seconds. -/
def hourStart (now : Int) : Int := now - now % HOUR

/-- `weather_time` values of the history rows stored for a location. -/
def historyTimesFor (s : Store) (locationId : String) : List Int :=
  (s.history.filter (fun r => r.locationId = locationId)).map (fun r => r.time)

/-- Derived `last_weather_time` of `selectLocationQuery`:
`MAX(weather_time)` over the location's history rows, absent when there are
none. -/
def maxWeatherTime (s : Store) (locationId : String) : Option Int :=
  (historyTimesFor s locationId).max?

/-- Derived `oldest_forecast_time` of `selectLocationQuery`:
`MIN(forecast_time)` over the location's forecast rows, absent when there are
none. -/
def minForecastTime (s : Store) (locationId : String) : Option Int :=
  ((s.forecast.filter (fun r => r.locationId = locationId)).map
    (fun r => r.time)).min?

/-- Join a `locations` row with its derived times (`selectLocationQuery`). -/
def toLocation (s : Store) (lr : LocationRow) : Location :=
  { id := lr.id
    name := lr.name
    lat := lr.lat
    lon := lr.lon
    lastWeatherTime := maxWeatherTime s lr.id
    oldestForecastTime := minForecastTime s lr.id }

/-- `Database.listLocations()`: every location with its derived times, in
storage order (the cursor is materialised as a list snapshot). -/
def listLocations (s : Store) : List Location :=
  s.locations.map (toLocation s)

/-- `Database.getOldestForecast(locationId)`: despite its name it selects
`MIN(weather_time)` from `weather_hourly_history` (`ORDER BY weather_time ASC
LIMIT 1`); `undefined` when the location has no history rows. -/
def getOldestForecast (s : Store) (locationId : String) : Option Int :=
  (historyTimesFor s locationId).min?

/-- The `weather_hourly_history` row built by `insertWeatherHistory`:
`rain_mm` / `snow_mm` default to 0 when the observation lacks the rate. -/
def mkHistoryRow (locationId : String) (time : Int) (weather : Weather) :
    HistoryRow :=
  { locationId := locationId
    time := time
    weather := weather
    temperature := weather.temp
    rain_mm := weather.rain.getD 0
    snow_mm := weather.snow.getD 0 }

/-- `Database.insertWeatherHistory`: a plain `INSERT` into
`weather_hourly_history`; the table's `PRIMARY KEY (location_id,
weather_time)` makes an insert at an existing key fail with a unique
violation (the method itself installs no handler for it).  The foreign key
to `locations` is not modelled: every insert in the programme is for a
registered location. -/
def insertWeatherHistory (s : Store) (locationId : String) (time : Int)
    (weather : Weather) : Except Err Store :=
  if s.history.any (fun r => r.locationId = locationId && r.time = time) then
    Except.error Err.uniqueViolation
  else
    Except.ok { s with
      history := s.history ++ [mkHistoryRow locationId time weather] }

/-- The `LocationWeather` projection of `listWeather`. -/
structure LocationWeather where
  locationId : String
  time : Int
  rain : Rat
  snow : Rat
  deriving DecidableEq, Repr

/-- `Database.listWeather(locationId, oldestTime)`: the location's history
rows with `weather_time >= oldestTime`, projected to `(location_id, time,
rain, snow)`, in storage order. -/
def listWeather (s : Store) (locationId : String) (oldestTime : Int) :
    List LocationWeather :=
  (s.history.filter
      (fun r => r.locationId = locationId ∧ oldestTime ≤ r.time)).map
    (fun r => { locationId := r.locationId, time := r.time,
                rain := r.rain_mm, snow := r.snow_mm })

/-- The `LocationForecast` projection of `listForecast`. -/
def listForecast (s : Store) (locationId : String) : List LocationWeather :=
  (s.forecast.filter (fun r => r.locationId = locationId)).map
    (fun r => { locationId := r.locationId, time := r.time,
                rain := r.rain_mm, snow := r.snow_mm })

/-- The `weather_hourly_forecast` row built inside `setForecast` for one
forecast hour: `forecast_time := hour.dt`. -/
def mkForecastRow (locationId : String) (hour : HourWeather) : ForecastRow :=
  { locationId := locationId
    time := hour.dt
    forecast := hour
    temperature := hour.temp
    rain_mm := hour.rain.getD 0
    snow_mm := hour.snow.getD 0 }

/-- The multi-row `INSERT INTO weather_hourly_forecast` executed inside the
`setForecast` transaction, over the in-transaction table state `f`: each row
is checked against the table's `PRIMARY KEY (location_id, forecast_time)` and
appended; a key already present (here: a duplicated `dt` inside the batch,
since the location's previous rows were deleted first) aborts the statement
with a unique violation. -/
def insertForecastRows (locationId : String) (hours : List HourWeather)
    (f : List ForecastRow) : Except Err (List ForecastRow) :=
  match hours with
  | [] => Except.ok f
  | h :: rest =>
    if f.any (fun r => r.locationId = locationId && r.time = h.dt) then
      Except.error Err.uniqueViolation
    else
      insertForecastRows locationId rest (f ++ [mkForecastRow locationId h])

/-- `Database.setForecast(locationId, forecast)`: inside one transaction,
delete the location's forecast rows then insert the whole new batch; on any
failure the transaction rolls back, so the original store is returned
unchanged together with the rethrown error. -/
def setForecast (s : Store) (locationId : String) (hours : List HourWeather) :
    Store × Option Err :=
  let deleted := s.forecast.filter (fun r => ¬ r.locationId = locationId)
  match insertForecastRows locationId hours deleted with
  | Except.ok f' => ({ s with forecast := f' }, none)
  | Except.error e => (s, some e)

/-- The start of `WeatherLoader.updateHistory`'s fetch loop:
`Math.max(beginTime, lastTime + HOUR)` with `lastTime = lastWeatherTime ??
-Infinity` (so an absent last time yields `beginTime`). -/
def syncStart (lastWeatherTime : Option Int) (endTime : Int) : Int :=
  match lastWeatherTime with
  | none => endTime - MAX_FETCH_WINDOW
  | some l => max (endTime - MAX_FETCH_WINDOW) (l + HOUR)

/-- The body of `updateHistory`'s `for` loop: while `time < endTime`, fetch
the historical observation and insert it, then advance by one hour; a
provider or insert failure propagates at once, keeping the rows already
inserted (each insert commits on its own).  `fuel` is a structural bound on
the iteration count (the caller supplies at least `endTime - time`, which
dominates the number of one-hour steps); the loop condition, not the fuel,
decides termination on every run. -/
def syncHours (ow : OpenWeatherApi) (loc : Location) (endTime : Int) :
    Nat → Store → Int → Store × Option Err
  | 0, s, _ => (s, none)
  | fuel + 1, s, time =>
    if time < endTime then
      match ow.getHistorical loc.lat loc.lon time with
      | Except.error e => (s, some e)
      | Except.ok res =>
        match insertWeatherHistory s loc.id time res.data with
        | Except.error e => (s, some e)
        | Except.ok s' => syncHours ow loc endTime fuel s' (time + HOUR)
    else (s, none)

/-- `WeatherLoader.updateHistory(location, endTime)` with the end time
already resolved: iterate hourly from `max(endTime - 48h, lastWeatherTime +
1h)` up to (excluding) `endTime`, fetching and inserting each hour. -/
def updateHistory (ow : OpenWeatherApi) (s : Store) (loc : Location)
    (endTime : Int) : Store × Option Err :=
  let start := syncStart loc.lastWeatherTime endTime
  syncHours ow loc endTime (endTime - start).toNat s start

/-- `WeatherLoader.updateHistory(location, endTime?)` including the
`if (!endTime) endTime = hourStart()` default (a missing — or zero, by
JavaScript truthiness — end time becomes the start of the current hour). -/
def updateHistoryOpt (ow : OpenWeatherApi) (now : Int) (s : Store)
    (loc : Location) (endTime? : Option Int) : Store × Option Err :=
  let endTime :=
    match endTime? with
    | none => hourStart now
    | some e => if e = 0 then hourStart now else e
  updateHistory ow s loc endTime

/-- The `for await` body of `fetchAllHistory`: synchronize each location in
listing order with the shared `endTime`; an error thrown by `updateHistory`
propagates out of the loop, leaving the remaining locations unprocessed. -/
def fetchAllLoop (ow : OpenWeatherApi) (now endTime : Int) :
    List Location → Store → Store × Option Err
  | [], s => (s, none)
  | loc :: rest, s =>
    match updateHistoryOpt ow now s loc (some endTime) with
    | (s', none) => fetchAllLoop ow now endTime rest s'
    | (s', some e) => (s', some e)

/-- `WeatherLoader.fetchAllHistory()`: one shared `endTime = hourStart()` for
the whole batch, then `updateHistory` per registered location in listing
order. -/
def fetchAllHistory (ow : OpenWeatherApi) (now : Int) (s : Store) :
    Store × Option Err :=
  fetchAllLoop ow now (hourStart now) (listLocations s) s

/-- The selection scan of `backfillHistory`: fold over the locations keeping
`(selected, youngestDate)`; a location replaces the current pick when
`!youngestDate || youngestDate < date` (JavaScript semantics: an `undefined`
or zero `youngestDate` is falsy, and a `<` involving `undefined` is false). -/
def selectBackfill (s : Store) :
    List Location → Option Location → Option Int → Option Location × Option Int
  | [], sel, yd => (sel, yd)
  | loc :: rest, sel, yd =>
    let date := getOldestForecast s loc.id
    if !(jsTruthy yd) || jsLtOpt yd date then
      selectBackfill s rest (some loc) date
    else
      selectBackfill s rest sel yd

/-- The backward fetch loop of `backfillHistory`: exactly `limit` iterations
(`for (let i = 0; i < limit; ++i, time -= HOUR)`), fetching and inserting
each hour; a provider or insert failure propagates, keeping prior rows. -/
def backfillLoop (ow : OpenWeatherApi) (sel : Location) :
    Nat → Store → Int → Store × Option Err
  | 0, s, _ => (s, none)
  | n + 1, s, time =>
    match ow.getHistorical sel.lat sel.lon time with
    | Except.error e => (s, some e)
    | Except.ok res =>
      match insertWeatherHistory s sel.id time res.data with
      | Except.error e => (s, some e)
      | Except.ok s' => backfillLoop ow sel n s' (time - HOUR)

/-- `WeatherLoader.backfillHistory(limit)`: pick the location whose oldest
stored history timestamp (via the misnamed `getOldestForecast`) is the most
recent, then walk backward one hour at a time from one hour before it for
`limit` iterations.  When no location is selected (empty store) nothing
happens.  When a location is selected but its date is `undefined` (no
location has any history), the JavaScript loop computes `undefined - 3600 =
NaN` and calls `getHistorical` with `dt = NaN`, which the provider rejects;
that path is modelled as an immediate provider error with no store change. -/
def backfillHistory (ow : OpenWeatherApi) (s : Store) (limit : Nat) :
    Store × Option Err :=
  match selectBackfill s (listLocations s) none none with
  | (none, _) => (s, none)
  | (some sel, some yd) => backfillLoop ow sel limit s (yd - HOUR)
  | (some _, none) => (s, some Err.providerError)

/-- Result of `_updateForecast`: the store, whether the provider's forecast
lookup was performed, and the error thrown, if any. -/
structure UpdateForecastResult where
  store : Store
  fetched : Bool
  err : Option Err
  deriving DecidableEq, Repr

/-- `BeckyBotSocket._updateForecast(location)`: skip (no fetch, no write)
when `location.oldestForecastTime > dayjs().subtract(2, 'hours').unix()`;
otherwise fetch the forecast and, when `hourly` data is present, replace the
stored forecast set via `setForecast`. -/
def updateForecast (ow : OpenWeatherApi) (s : Store) (loc : Location)
    (now : Int) : UpdateForecastResult :=
  if jsGtOpt loc.oldestForecastTime (now - 2 * HOUR) then
    { store := s, fetched := false, err := none }
  else
    match ow.getForecast loc.lat loc.lon with
    | Except.error e => { store := s, fetched := true, err := some e }
    | Except.ok fc =>
      match fc.hourly with
      | none => { store := s, fetched := true, err := none }
      | some hours =>
        let (s', e) := setForecast s loc.id hours
        { store := s', fetched := true, err := e }

/-- The rolling day/week/month totals accumulated by
`_summarizeWeatherHistory`. -/
structure PrecipitationTotals where
  day : Rat
  week : Rat
  month : Rat
  deriving DecidableEq, Repr

/-- The forecast summary (`rain`/`snow` totals over the next 48 hours). -/
structure ForecastSummary where
  rain : Rat
  snow : Rat
  deriving DecidableEq, Repr

/-- The `LocationResponse` emitted per location: the `rain` / `snow`
precipitation totals are present only when set (see
`summarizeWeatherHistory`), and `forecast` is attached later by
`_whereToGo`. -/
structure LocationResponse where
  location : Location
  rain : Option PrecipitationTotals
  snow : Option PrecipitationTotals
  forecast : Option ForecastSummary
  deriving DecidableEq, Repr

/-- The rain/snow accumulators of `_summarizeWeatherHistory`'s scan. -/
structure SummaryAcc where
  rain : PrecipitationTotals
  snow : PrecipitationTotals
  deriving DecidableEq, Repr

/-- One iteration of `_summarizeWeatherHistory`'s `for await` scan: three
independent cutoff comparisons, each adding the row's rain and snow into the
corresponding window total. -/
def summarizeStep (aDayAgo aWeekAgo aMonthAgo : Int) (acc : SummaryAcc)
    (w : LocationWeather) : SummaryAcc :=
  let acc :=
    if aDayAgo < w.time then
      { rain := { acc.rain with day := acc.rain.day + w.rain }
        snow := { acc.snow with day := acc.snow.day + w.snow } }
    else acc
  let acc :=
    if aWeekAgo < w.time then
      { rain := { acc.rain with week := acc.rain.week + w.rain }
        snow := { acc.snow with week := acc.snow.week + w.snow } }
    else acc
  if aMonthAgo < w.time then
    { rain := { acc.rain with month := acc.rain.month + w.rain }
      snow := { acc.snow with month := acc.snow.month + w.snow } }
  else acc

/-- `BeckyBotSocket._summarizeWeatherHistory(loc)`: first bring the history
up to date (`updateHistory` with the default end time; a throw propagates);
then scan the stored rows from 4 weeks ago in one pass, accumulating the
nested day/week/month rain and snow sums; attach `rain` / `snow` to the
response only when the corresponding month total is truthy (nonzero). -/
def summarizeWeatherHistory (ow : OpenWeatherApi) (now : Int) (s : Store)
    (loc : Location) : Store × Except Err LocationResponse :=
  match updateHistoryOpt ow now s loc none with
  | (s', some e) => (s', Except.error e)
  | (s', none) =>
    let aDayAgo := now - 86400
    let aWeekAgo := now - 604800
    let aMonthAgo := now - 2419200
    let acc := (listWeather s' loc.id aMonthAgo).foldl
      (summarizeStep aDayAgo aWeekAgo aMonthAgo)
      { rain := ⟨0, 0, 0⟩, snow := ⟨0, 0, 0⟩ }
    (s', Except.ok
      { location := loc
        rain := if jsTruthyQ acc.rain.month then some acc.rain else none
        snow := if jsTruthyQ acc.snow.month then some acc.snow else none
        forecast := none })

/-- `badWeatherHistory({rain, snow})`: discard a candidate when
`rain?.day > 10`, or `snow?.day > 10 || snow?.week > 100` (optional-chain
comparisons: an absent summary compares false). -/
def badWeatherHistory (resp : LocationResponse) : Bool :=
  if jsGtOptQ (resp.rain.map (fun r => r.day)) 10 then true
  else if jsGtOptQ (resp.snow.map (fun r => r.day)) 10
      || jsGtOptQ (resp.snow.map (fun r => r.week)) 100 then true
  else false

/-! ### Specification-level characterizations -/

/-- Number of one-hour steps from `t` (inclusive) to `e` (exclusive):
`⌈(e - t) / HOUR⌉`, and `0` when `e ≤ t`. -/
def hourCount (t e : Int) : Nat := ((e - t + (HOUR - 1)) / HOUR).toNat

/-- The hour-stepped timestamps `t, t + 1h, t + 2h, …` strictly below `e`:
the set of instants the rolling synchronizer visits. -/
def hourRange (t e : Int) : List Int :=
  (List.range (hourCount t e)).map (fun k : Nat => t + HOUR * (k : Int))

/-- `n` hour-stepped timestamps walking backward from `t`:
`t, t - 1h, …, t - (n-1)h` — the instants one backfill run visits. -/
def descHourRange (t : Int) (n : Nat) : List Int :=
  (List.range n).map (fun k : Nat => t - HOUR * (k : Int))

/-- The history rows stored for a location. -/
def historyFor (s : Store) (locationId : String) : List HistoryRow :=
  s.history.filter (fun r => r.locationId = locationId)

/-- The forecast rows stored for a location. -/
def forecastFor (s : Store) (locationId : String) : List ForecastRow :=
  s.forecast.filter (fun r => r.locationId = locationId)

/-- Total rain over the scanned rows whose time is strictly after `cutoff` —
the specification's reading of one rolling window. -/
def windowRain (rows : List LocationWeather) (cutoff : Int) : Rat :=
  ((rows.filter (fun r => cutoff < r.time)).map (fun r => r.rain)).sum

/-- Total snow over the scanned rows whose time is strictly after `cutoff`. -/
def windowSnow (rows : List LocationWeather) (cutoff : Int) : Rat :=
  ((rows.filter (fun r => cutoff < r.time)).map (fun r => r.snow)).sum

/-- A location snapshot is consistent with the store when every stored
history row of that location is no newer than the snapshot's
`lastWeatherTime` (in particular, a snapshot with no `lastWeatherTime` has
no stored rows) — the state any snapshot read from the store itself
satisfies. -/
def snapConsistent (s : Store) (loc : Location) : Prop :=
  ∀ r ∈ s.history, r.locationId = loc.id →
    ∃ L, loc.lastWeatherTime = some L ∧ r.time ≤ L

/-- An always-succeeding provider whose observation at instant `t` is
`w t` (used to state success-path theorems). -/
def okHistoricalApi (ow : OpenWeatherApi) (w : Int → Weather) : Prop :=
  ∀ la lo t, ow.getHistorical la lo t = Except.ok { data := w t }

/-! ### Concrete fixtures for counterexamples and witnesses -/

/-- An observation with no recorded rain or snow. -/
def zeroWeather : Weather := { temp := 0, rain := none, snow := none }

/-- A provider that always succeeds: the zero observation for every
historical lookup, no hourly data for forecasts. -/
def owZero : OpenWeatherApi :=
  { getHistorical := fun _ _ _ => Except.ok { data := zeroWeather }
    getForecast := fun _ _ => Except.ok { hourly := none } }

/-- A provider whose historical lookup fails for latitude `1` and succeeds
elsewhere. -/
def owFailLatOne : OpenWeatherApi :=
  { getHistorical := fun la _ _ =>
      if la = 1 then Except.error Err.providerError
      else Except.ok { data := zeroWeather }
    getForecast := fun _ _ => Except.error Err.providerError }

/-- A registered location row at `(3, 3)`. -/
def locRowC : LocationRow := { id := "3.00,3.00", name := "C", lat := 3, lon := 3 }

/-- A store holding only the location `locRowC`, with no history rows. -/
def storeNoHistory : Store := { locations := [locRowC], history := [], forecast := [] }

/-- A snapshot of `locRowC` whose last weather time is `T - 10h` for
`T = 432000`. -/
def locTenBefore : Location :=
  { id := "3.00,3.00", name := "C", lat := 3, lon := 3,
    lastWeatherTime := some 396000, oldestForecastTime := none }

/-- A store whose only history row (for `locRowC`) is at hour `360000`. -/
def storeWithRow : Store :=
  { locations := [locRowC]
    history := [mkHistoryRow "3.00,3.00" 360000 zeroWeather]
    forecast := [] }

/-- A stale snapshot of `locRowC`: its `lastWeatherTime` predates the stored
row at `360000` (a concurrent synchronizer inserted that row after this
snapshot was read), so the next sync attempts a duplicate insert. -/
def locStale : Location :=
  { id := "3.00,3.00", name := "C", lat := 3, lon := 3,
    lastWeatherTime := some 356400, oldestForecastTime := none }

/-- A registered location row at `(1, 1)` — the latitude `owFailLatOne`
fails for. -/
def locRowA : LocationRow := { id := "1.00,1.00", name := "A", lat := 1, lon := 1 }

/-- A registered location row at `(2, 2)`. -/
def locRowB : LocationRow := { id := "2.00,2.00", name := "B", lat := 2, lon := 2 }

/-- A store with the two locations `A` (listed first) and `B`, no history. -/
def storeTwoLocs : Store :=
  { locations := [locRowA, locRowB], history := [], forecast := [] }

/-- A forecast hour at `dt = 100`. -/
def hourA : HourWeather := { dt := 100, temp := 1, rain := some 2, snow := none }

/-- A forecast hour at `dt = 3700`. -/
def hourB : HourWeather := { dt := 3700, temp := 1, rain := none, snow := some 1 }

/-- A store with locations `A` and `B` where `A`'s oldest history row
(`7200`) is older than `B`'s (`10800`), making `B` the least-backfilled. -/
def storeBackfill : Store :=
  { locations := [locRowA, locRowB]
    history := [mkHistoryRow "1.00,1.00" 7200 zeroWeather,
                mkHistoryRow "2.00,2.00" 10800 zeroWeather]
    forecast := [] }

/-- A provider whose forecast lookup returns the hours `[hourA, hourB]`. -/
def owForecast : OpenWeatherApi :=
  { getHistorical := fun _ _ _ => Except.ok { data := zeroWeather }
    getForecast := fun _ _ => Except.ok { hourly := some [hourA, hourB] } }

/-- The snapshot of `locRowC` re-read after a forecast refresh stored
`[hourA, hourB]`: its derived `oldestForecastTime` is `hourA.dt = 100`. -/
def locAfterForecast : Location :=
  { id := "3.00,3.00", name := "C", lat := 3, lon := 3,
    lastWeatherTime := some 360000, oldestForecastTime := some 100 }

/-- An observation with `rain['1h'] = q` and no snow. -/
def rainW (q : Rat) : Weather := { temp := 0, rain := some q, snow := none }

/-- A store for `locRowC` holding three rain observations at `now - 12h`
(rain 5), `now - 5d` (rain 3) and `now - 20d` (rain 2) for `now = 4838400`. -/
def storeRain : Store :=
  { locations := [locRowC]
    history := [mkHistoryRow "3.00,3.00" 4795200 (rainW 5),
                mkHistoryRow "3.00,3.00" 4406400 (rainW 3),
                mkHistoryRow "3.00,3.00" 3110400 (rainW 2)]
    forecast := [] }

/-- A snapshot of `locRowC` already synchronized up to `now - 1h`
(`now = 4838400`), so `updateHistory` inside the summarizer is a no-op. -/
def locRaining : Location :=
  { id := "3.00,3.00", name := "C", lat := 3, lon := 3,
    lastWeatherTime := some 4834800, oldestForecastTime := none }

/-- The summary the bot emits for `storeRain` / `locRaining` at
`now = 4838400`: rain `{day 5, week 8, month 10}`, no snow key. -/
def respRain : LocationResponse :=
  { location := locRaining
    rain := some { day := 5, week := 8, month := 10 }
    snow := none
    forecast := none }

/-! ### Helper lemmas -/

theorem int_max?_eq_some_iff {l : List Int} {a : Int} :
    l.max? = some a ↔ a ∈ l ∧ ∀ b ∈ l, b ≤ a := by
  have inst : Std.Antisymm (α := Int) (· ≤ ·) := ⟨fun h h' => le_antisymm h h'⟩
  rw [List.max?_eq_some_iff] <;> simp [le_total, max_le_iff, le_max_iff]

theorem int_min?_eq_some_iff {l : List Int} {a : Int} :
    l.min? = some a ↔ a ∈ l ∧ ∀ b ∈ l, a ≤ b := by
  have inst : Std.Antisymm (α := Int) (· ≤ ·) := ⟨fun h h' => le_antisymm h h'⟩
  rw [List.min?_eq_some_iff] <;> simp [le_total, min_le_iff, le_min_iff]

theorem hourRange_of_le {t e : Int} (h : e ≤ t) : hourRange t e = [] := by
  have : hourCount t e = 0 := by unfold hourCount HOUR; omega
  simp [hourRange, this]

theorem hourRange_cons {t e : Int} (h : t < e) :
    hourRange t e = t :: hourRange (t + HOUR) e := by
  have hc : hourCount t e = hourCount (t + HOUR) e + 1 := by
    unfold hourCount HOUR; omega
  unfold hourRange
  rw [hc, List.range_succ_eq_map, List.map_cons, List.map_map]
  refine congrArg₂ _ (by simp) (List.map_congr_left fun k _ => ?_)
  simp only [Function.comp_apply, Nat.succ_eq_add_one]
  push_cast
  ring

theorem mem_hourRange {x t e : Int} :
    x ∈ hourRange t e ↔ t ≤ x ∧ x < e ∧ (x - t) % HOUR = 0 := by
  simp only [hourRange, hourCount, HOUR, List.mem_map, List.mem_range]
  constructor
  · rintro ⟨k, hk, rfl⟩
    omega
  · rintro ⟨h1, h2, h3⟩
    exact ⟨((x - t) / 3600).toNat, by omega, by omega⟩

theorem hourRange_nodup (t e : Int) : (hourRange t e).Nodup := by
  refine List.Nodup.map (fun a b hab => ?_) (List.nodup_range _)
  have h36 : (HOUR : Int) = 3600 := rfl
  rw [h36] at hab
  omega

theorem hourRange_length (t e : Int) :
    (hourRange t e).length = hourCount t e := by
  simp [hourRange]

theorem syncHours_spec {ow : OpenWeatherApi} {w : Int → Weather}
    (loc : Location) (hw : okHistoricalApi ow w) (endTime : Int) :
    ∀ (fuel : Nat) (time : Int) (s : Store),
      endTime - time ≤ HOUR * fuel →
      (∀ r ∈ s.history, r.locationId = loc.id → r.time < time) →
      syncHours ow loc endTime fuel s time =
        ({ s with history := (s.history ++ (hourRange time endTime).map
              (fun t => mkHistoryRow loc.id t (w t))) }, none) := by
  intro fuel
  induction fuel with
  | zero =>
    intro time s hb _
    have h36 : (HOUR : Int) = 3600 := rfl
    have he : endTime ≤ time := by omega
    simp [syncHours, hourRange_of_le he]
  | succ fuel ih =>
    intro time s hb hrows
    have h36 : (HOUR : Int) = 3600 := rfl
    simp only [HOUR] at hb
    by_cases hlt : time < endTime
    · have hany : (s.history.any
          (fun r => r.locationId = loc.id && r.time = time)) = false := by
        rw [List.any_eq_false]
        intro r hr
        simp only [Bool.and_eq_true, decide_eq_true_eq, not_and]
        intro hid hts
        exact absurd hts (by have := hrows r hr hid; omega)
      have hrows' : ∀ r ∈ (s.history ++ [mkHistoryRow loc.id time (w time)]),
          r.locationId = loc.id → r.time < time + HOUR := by
        intro r hr hid
        rcases List.mem_append.mp hr with hold | hnew
        · have := hrows r hold hid
          omega
        · rcases List.mem_singleton.mp hnew with rfl
          simp only [mkHistoryRow]
          omega
      simp only [syncHours, hlt, if_true, hw loc.lat loc.lon time,
        insertWeatherHistory, hany, Bool.false_eq_true, if_false]
      rw [ih (time + HOUR) _ (by simp only [HOUR]; omega) hrows']
      rw [hourRange_cons hlt]
      simp [List.append_assoc]
    · rw [hourRange_of_le (not_lt.mp hlt)]
      simp [syncHours, hlt]

/-- Success-path behaviour of `updateHistory`: with an always-succeeding
provider and a store-consistent snapshot, the run appends exactly the rows
of the hour-stepped window `[syncStart, endTime)` and reports no error. -/
theorem updateHistory_spec {ow : OpenWeatherApi} {w : Int → Weather}
    (s : Store) (loc : Location) (endTime : Int)
    (hw : okHistoricalApi ow w) (hsnap : snapConsistent s loc) :
    updateHistory ow s loc endTime =
      ({ s with history :=
          s.history ++ (hourRange (syncStart loc.lastWeatherTime endTime)
            endTime).map (fun t => mkHistoryRow loc.id t (w t)) }, none) := by
  unfold updateHistory
  refine syncHours_spec loc hw endTime _ _ _ (by simp only [HOUR]; omega) ?_
  intro r hr hid
  obtain ⟨L, hL, hle⟩ := hsnap r hr hid
  rw [hL]
  show r.time < max (endTime - MAX_FETCH_WINDOW) (L + HOUR)
  have hm := le_max_right (endTime - MAX_FETCH_WINDOW) (L + HOUR)
  have h36 : (HOUR : Int) = 3600 := rfl
  omega

/-- After appending the freshly fetched window for a location, the derived
`MAX(weather_time)` is the newest appended timestamp, provided it dominates
both the appended window and the rows already stored. -/
theorem maxWeatherTime_after_append (s : Store) (loc : Location)
    (times : List Int) (w : Int → Weather) (m : Int)
    (hmem : m ∈ times) (hbound : ∀ x ∈ times, x ≤ m)
    (hold : ∀ r ∈ s.history, r.locationId = loc.id → r.time ≤ m) :
    maxWeatherTime
      { s with history := (s.history ++ times.map
          (fun t => mkHistoryRow loc.id t (w t))) }
      loc.id = some m := by
  rw [maxWeatherTime, int_max?_eq_some_iff]
  constructor
  · simp only [historyTimesFor, List.filter_append, List.map_append,
      List.mem_append]
    right
    simp only [List.mem_map, List.mem_filter]
    refine ⟨mkHistoryRow loc.id m (w m),
      ⟨⟨m, hmem, rfl⟩, by simp [mkHistoryRow]⟩, rfl⟩
  · intro b hb
    simp only [historyTimesFor, List.filter_append, List.map_append,
      List.mem_append, List.mem_map, List.mem_filter,
      decide_eq_true_eq] at hb
    rcases hb with ⟨r, ⟨hr, hrid⟩, rfl⟩ | ⟨r, ⟨hr, hrid⟩, rfl⟩
    · exact hold r hr hrid
    · obtain ⟨t, ht, rfl⟩ := hr
      simpa [mkHistoryRow] using hbound t ht

/-- **C2 (amended).** For every consistent location snapshot with last
weather time `L` (absent treated as negative infinity) and every hour-aligned
end time `T`, `updateHistory` fetches and inserts exactly one history row per
hour-aligned timestamp of `[max(T - 48h, L + 1h), T)`, stepping by exactly
one hour, and no others; with no prior history it inserts exactly 48 rows
spanning `[T - 48h, T)`; with `L = T - 10h` it inserts exactly 9 rows (the
hours `T - 9h … T - 1h`; the loop starts at `L + 1h`), and re-running
immediately afterwards with the re-derived last weather time inserts zero
additional rows. -/
theorem updateHistory_inserts_exactly_missing_hours
    {ow : OpenWeatherApi} {w : Int → Weather} (s : Store) (loc : Location)
    (T : Int) (hw : okHistoricalApi ow w) (hT : T % 3600 = 0)
    (hsnap : snapConsistent s loc) :
    (updateHistory ow s loc T =
      ({ s with history := (s.history ++
          (hourRange (syncStart loc.lastWeatherTime T) T).map
            (fun t => mkHistoryRow loc.id t (w t))) }, none))
    ∧ (∀ x, x ∈ hourRange (syncStart loc.lastWeatherTime T) T ↔
        syncStart loc.lastWeatherTime T ≤ x ∧ x < T
          ∧ (x - syncStart loc.lastWeatherTime T) % HOUR = 0)
    ∧ (hourRange (syncStart loc.lastWeatherTime T) T).Nodup
    ∧ (loc.lastWeatherTime = none →
        syncStart loc.lastWeatherTime T = T - 172800
        ∧ (hourRange (syncStart loc.lastWeatherTime T) T).length = 48
        ∧ (∀ x ∈ hourRange (syncStart loc.lastWeatherTime T) T,
            T - 172800 ≤ x ∧ x < T ∧ x % 3600 = 0))
    ∧ (loc.lastWeatherTime = some (T - 36000) →
        syncStart loc.lastWeatherTime T = T - 32400
        ∧ (hourRange (syncStart loc.lastWeatherTime T) T).length = 9
        ∧ maxWeatherTime (updateHistory ow s loc T).1 loc.id = some (T - 3600)
        ∧ (∀ loc' : Location, loc'.id = loc.id →
            loc'.lastWeatherTime = some (T - 3600) →
            updateHistory ow (updateHistory ow s loc T).1 loc' T
              = ((updateHistory ow s loc T).1, none))) := by
  have h36 : (HOUR : Int) = 3600 := rfl
  have hM : (MAX_FETCH_WINDOW : Int) = 172800 := rfl
  have hmain := updateHistory_spec s loc T hw hsnap
  refine ⟨hmain, fun x => mem_hourRange, hourRange_nodup _ _, ?_, ?_⟩
  · intro hL
    have hstart : syncStart loc.lastWeatherTime T = T - 172800 := by
      rw [hL]
      show T - MAX_FETCH_WINDOW = T - 172800
      omega
    refine ⟨hstart, ?_, ?_⟩
    · rw [hstart, hourRange_length]
      unfold hourCount HOUR
      omega
    · intro x hx
      rw [hstart] at hx
      have hm := mem_hourRange.mp hx
      simp only [HOUR] at hm
      omega
  · intro hL
    have hstart : syncStart loc.lastWeatherTime T = T - 32400 := by
      rw [hL]
      show max (T - MAX_FETCH_WINDOW) ((T - 36000) + HOUR) = T - 32400
      rw [hM, h36, max_eq_right (by omega)]
      omega
    have hlen : (hourRange (syncStart loc.lastWeatherTime T) T).length = 9 := by
      rw [hstart, hourRange_length]
      unfold hourCount HOUR
      omega
    have hboundnew : ∀ x ∈ hourRange (syncStart loc.lastWeatherTime T) T,
        x ≤ T - 3600 := by
      intro x hx
      rw [hstart] at hx
      have hm := mem_hourRange.mp hx
      simp only [HOUR] at hm
      omega
    have hmemnew : T - 3600 ∈ hourRange (syncStart loc.lastWeatherTime T) T := by
      rw [hstart, mem_hourRange]
      simp only [HOUR]
      omega
    have holdrows : ∀ r ∈ s.history, r.locationId = loc.id →
        r.time ≤ T - 3600 := by
      intro r hr hid
      obtain ⟨L, hLr, hle⟩ := hsnap r hr hid
      rw [hL] at hLr
      have : L = T - 36000 := by injection hLr.symm
      omega
    have hmax : maxWeatherTime (updateHistory ow s loc T).1 loc.id
        = some (T - 3600) := by
      rw [hmain]
      exact maxWeatherTime_after_append s loc _ w (T - 3600) hmemnew
        hboundnew holdrows
    refine ⟨hstart, hlen, hmax, ?_⟩
    intro loc' hid' hlast'
    have hsnap' : snapConsistent (updateHistory ow s loc T).1 loc' := by
      rw [hmain]
      intro r hr hrid
      refine ⟨T - 3600, hlast', ?_⟩
      simp only [List.mem_append, List.mem_map] at hr
      rcases hr with hold | ⟨t, ht, rfl⟩
      · exact holdrows r hold (by rw [hrid, hid'])
      · simpa [mkHistoryRow] using hboundnew t ht
    have hspec' := updateHistory_spec (updateHistory ow s loc T).1 loc' T hw hsnap'
    have hstart' : syncStart loc'.lastWeatherTime T = T := by
      rw [hlast']
      show max (T - MAX_FETCH_WINDOW) ((T - 3600) + HOUR) = T
      rw [hM, h36, max_eq_right (by omega)]
      omega
    rw [hstart', hourRange_of_le le_rfl] at hspec'
    simpa using hspec'

/-- **C2 (counterexample).** With end time `T = 432000` and a location whose
last weather time is `T - 10h = 396000` (and no stored rows), `updateHistory`
inserts 9 rows — the loop starts at `lastWeatherTime + 1h = T - 9h` — not the
10 rows the claim states. -/
theorem updateHistory_ten_hour_gap_yields_nine_rows :
    (updateHistory owZero storeNoHistory locTenBefore 432000).1.history.length = 9
    ∧ ¬ ((updateHistory owZero storeNoHistory locTenBefore
          432000).1.history.length = 10) := by
  constructor <;> decide

/-- Witness for the amended C2 theorem at `T = 432000`, `L = T - 10h`: the
window has exactly 9 timestamps and the run reports no error. -/
theorem updateHistory_inserts_exactly_missing_hours_witness :
    (hourRange (syncStart locTenBefore.lastWeatherTime 432000) 432000).length = 9
    ∧ (updateHistory owZero storeNoHistory locTenBefore 432000).2 = none := by
  have h := @updateHistory_inserts_exactly_missing_hours
    owZero (fun _ => zeroWeather) storeNoHistory locTenBefore 432000
    (fun _ _ _ => rfl) (by decide)
    (by intro r hr; simp [storeNoHistory] at hr)
  obtain ⟨hmain, -, -, -, hten⟩ := h
  have h9 := hten (by decide)
  exact ⟨h9.2.1, by rw [hmain]⟩

theorem descHourRange_zero (t : Int) : descHourRange t 0 = [] := rfl

theorem descHourRange_succ (t : Int) (n : Nat) :
    descHourRange t (n + 1) = t :: descHourRange (t - HOUR) n := by
  unfold descHourRange
  rw [List.range_succ_eq_map, List.map_cons, List.map_map]
  refine congrArg₂ _ (by simp) (List.map_congr_left fun k _ => ?_)
  simp only [Function.comp_apply, Nat.succ_eq_add_one]
  push_cast
  ring

theorem descHourRange_length (t : Int) (n : Nat) :
    (descHourRange t n).length = n := by
  simp [descHourRange]

theorem descHourRange_getElem (t : Int) (n k : Nat) (hk : k < n) :
    (descHourRange t n)[k]? = some (t - HOUR * k) := by
  simp [descHourRange, List.getElem?_map, List.getElem?_range, hk]

/-- Invariant-carrying specification of `selectBackfill`: when every scanned
location has a positive oldest-history time, the fold returns a selection
whose date is defined, positive and maximal among the scanned locations and
the incoming accumulator, and the selected location comes from the scanned
list (or was the incoming pick). -/
theorem selectBackfill_spec (s : Store) :
    ∀ (locs : List Location) (sel : Option Location) (yd : Option Int),
      (∀ l ∈ locs, ∃ d, getOldestForecast s l.id = some d ∧ 0 < d) →
      ((sel = none ∧ yd = none) ∨
        (∃ se d, sel = some se ∧ yd = some d
          ∧ getOldestForecast s se.id = some d ∧ 0 < d)) →
      (locs = [] → ¬ sel = none) →
      ∃ se d, selectBackfill s locs sel yd = (some se, some d)
        ∧ getOldestForecast s se.id = some d ∧ 0 < d
        ∧ (∀ l ∈ locs, ∀ dl, getOldestForecast s l.id = some dl → dl ≤ d)
        ∧ (∀ d0, yd = some d0 → d0 ≤ d)
        ∧ (se ∈ locs ∨ sel = some se) := by
  intro locs
  induction locs with
  | nil =>
    intro sel yd _ hinv hne
    rcases hinv with ⟨hsel, _⟩ | ⟨se, d, hsel, hyd, hdate, hdpos⟩
    · exact absurd hsel (hne rfl)
    · subst hsel; subst hyd
      exact ⟨se, d, rfl, hdate, hdpos, by simp, fun d0 h0 => by
        injection h0 with h0; omega, Or.inr rfl⟩
  | cons l rest ih =>
    intro sel yd hall hinv _
    obtain ⟨dl, hdl, hdlpos⟩ := hall l (List.mem_cons_self l rest)
    have hall' : ∀ x ∈ rest, ∃ d, getOldestForecast s x.id = some d ∧ 0 < d :=
      fun x hx => hall x (List.mem_cons_of_mem l hx)
    have hstep : selectBackfill s (l :: rest) sel yd
        = if !(jsTruthy yd) || jsLtOpt yd (getOldestForecast s l.id) then
            selectBackfill s rest (some l) (getOldestForecast s l.id)
          else selectBackfill s rest sel yd := rfl
    by_cases hcond : (!(jsTruthy yd) || jsLtOpt yd (some dl)) = true
    · rw [hstep, hdl, if_pos hcond]
      obtain ⟨se, d, heq, hdate, hdpos, hmax, hge, hprov⟩ :=
        ih (some l) (some dl)
          hall' (Or.inr ⟨l, dl, rfl, rfl, hdl, hdlpos⟩) (fun _ => by simp)
      have hdld : dl ≤ d := hge dl rfl
      refine ⟨se, d, heq, hdate, hdpos, ?_, ?_, ?_⟩
      · intro x hx dx hdx
        rcases List.mem_cons.mp hx with rfl | hxr
        · rw [hdl] at hdx
          injection hdx with hdx
          omega
        · exact hmax x hxr dx hdx
      · intro d0 h0
        subst h0
        rcases Bool.or_eq_true_iff.mp hcond with htr | hlt
        · have h1 : jsTruthy (some d0) = false := by simpa using htr
          simp only [jsTruthy, ne_eq, decide_eq_false_iff_not, not_not] at h1
          omega
        · have : d0 < dl := by simpa [jsLtOpt] using hlt
          omega
      · rcases hprov with hser | hsel
        · exact Or.inl (List.mem_cons_of_mem l hser)
        · injection hsel with hsel
          exact Or.inl (hsel ▸ List.mem_cons_self l rest)
    · rw [hstep, hdl, if_neg hcond]
      have hyd : ∃ se0 d0, sel = some se0 ∧ yd = some d0
          ∧ getOldestForecast s se0.id = some d0 ∧ 0 < d0 := by
        rcases hinv with ⟨hsel, hydn⟩ | h
        · exfalso
          apply hcond
          subst hydn
          simp [jsTruthy]
        · exact h
      obtain ⟨se0, d0, hsel0, hyd0, hdate0, hd0pos⟩ := hyd
      have hdl_le : dl ≤ d0 := by
        subst hyd0
        have hnlt : ¬ (jsLtOpt (some d0) (some dl)) = true := by
          intro hlt
          exact hcond (Bool.or_eq_true_iff.mpr (Or.inr hlt))
        simp only [jsLtOpt, decide_eq_true_eq] at hnlt
        omega
      obtain ⟨se, d, heq, hdate, hdpos, hmax, hge, hprov⟩ :=
        ih sel yd hall' (Or.inr ⟨se0, d0, hsel0, hyd0, hdate0, hd0pos⟩)
          (fun _ => by simp [hsel0])
      have hd0d : d0 ≤ d := hge d0 hyd0
      refine ⟨se, d, heq, hdate, hdpos, ?_, ?_, ?_⟩
      · intro x hx dx hdx
        rcases List.mem_cons.mp hx with rfl | hxr
        · rw [hdl] at hdx
          injection hdx with hdx
          omega
        · exact hmax x hxr dx hdx
      · intro d1 h1
        rw [hyd0] at h1
        injection h1 with h1
        omega
      · rcases hprov with hser | hsel
        · exact Or.inl (List.mem_cons_of_mem l hser)
        · exact Or.inr hsel

/-- The backward backfill loop fetches and inserts exactly `n` rows at
`time, time - 1h, …` when every stored row of the selected location is
strictly newer than `time` (which the oldest-row selection guarantees). -/
theorem backfillLoop_spec {ow : OpenWeatherApi} {w : Int → Weather}
    (sel : Location) (hw : okHistoricalApi ow w) :
    ∀ (n : Nat) (s : Store) (time : Int),
      (∀ r ∈ s.history, r.locationId = sel.id → time < r.time) →
      backfillLoop ow sel n s time =
        ({ s with history := (s.history ++ (descHourRange time n).map
            (fun t => mkHistoryRow sel.id t (w t))) }, none) := by
  intro n
  induction n with
  | zero =>
    intro s time _
    simp [backfillLoop, descHourRange]
  | succ n ih =>
    intro s time hrows
    have h36 : (HOUR : Int) = 3600 := rfl
    have hany : (s.history.any
        (fun r => r.locationId = sel.id && r.time = time)) = false := by
      rw [List.any_eq_false]
      intro r hr
      simp only [Bool.and_eq_true, decide_eq_true_eq, not_and]
      intro hid hts
      exact absurd hts (by have := hrows r hr hid; omega)
    have hrows' : ∀ r ∈ (s.history ++ [mkHistoryRow sel.id time (w time)]),
        r.locationId = sel.id → time - HOUR < r.time := by
      intro r hr hid
      rcases List.mem_append.mp hr with hold | hnew
      · have := hrows r hold hid
        omega
      · rcases List.mem_singleton.mp hnew with rfl
        simp only [mkHistoryRow]
        omega
    simp only [backfillLoop, hw sel.lat sel.lon time, insertWeatherHistory,
      hany, Bool.false_eq_true, if_false]
    rw [ih _ _ hrows']
    rw [descHourRange_succ]
    simp [List.append_assoc]

/-- **C1 (counterexample).** A duplicate-key conflict is not absorbed: with a
row already stored at hour `360000` and a stale snapshot whose
`lastWeatherTime` is `356400`, `updateHistory` with end time `367200` raises
the unique violation out of the synchronizer, leaves the store unchanged and
does not continue with the remaining missing hour `363600`. -/
theorem updateHistory_duplicate_key_raises :
    updateHistory owZero storeWithRow locStale 367200
      = (storeWithRow, some Err.uniqueViolation) := by
  decide

/-- **C1 (amended).** When the first missing hour's insert hits a
duplicate-key conflict, `updateHistory` propagates the unique violation like
any other failure — it does not treat the conflict as success, and the
remaining hours of that pass are abandoned (the store is returned as it was
when the conflict struck). -/
theorem updateHistory_conflict_propagates
    (ow : OpenWeatherApi) (s : Store) (loc : Location) (endTime : Int)
    (res : HistoryResponse)
    (hlt : syncStart loc.lastWeatherTime endTime < endTime)
    (hw : ow.getHistorical loc.lat loc.lon
      (syncStart loc.lastWeatherTime endTime) = Except.ok res)
    (hdup : (s.history.any (fun r => r.locationId = loc.id
        && r.time = syncStart loc.lastWeatherTime endTime)) = true) :
    updateHistory ow s loc endTime = (s, some Err.uniqueViolation) := by
  show syncHours ow loc endTime
    (endTime - syncStart loc.lastWeatherTime endTime).toNat s
    (syncStart loc.lastWeatherTime endTime) = (s, some Err.uniqueViolation)
  have hf : (endTime - syncStart loc.lastWeatherTime endTime).toNat
      = (endTime - syncStart loc.lastWeatherTime endTime).toNat - 1 + 1 := by
    omega
  rw [hf]
  simp [syncHours, hlt, hw, insertWeatherHistory, hdup]

/-- Witness for the amended C1 theorem at the concrete stale-snapshot store:
the conflict at hour `360000` surfaces as the run's error. -/
theorem updateHistory_conflict_propagates_witness :
    updateHistory owZero storeWithRow locStale 363600
      = (storeWithRow, some Err.uniqueViolation) :=
  updateHistory_conflict_propagates owZero storeWithRow locStale 363600
    { data := zeroWeather } (by decide) rfl (by decide)

/-- A successful transactional batch insert appends exactly the batch, in
order, to the in-transaction table state. -/
theorem insertForecastRows_ok {locationId : String} (hours : List HourWeather) :
    ∀ (f f' : List ForecastRow),
      insertForecastRows locationId hours f = Except.ok f' →
      f' = f ++ hours.map (mkForecastRow locationId) := by
  induction hours with
  | nil =>
    intro f f' h
    simp only [insertForecastRows, Except.ok.injEq] at h
    simp [← h]
  | cons hh rest ih =>
    intro f f' h
    simp only [insertForecastRows] at h
    by_cases hc : (f.any fun r => r.locationId = locationId && r.time = hh.dt)
      = true
    · rw [if_pos hc] at h
      exact absurd h (by simp)
    · rw [if_neg hc] at h
      have := ih _ _ h
      simp [this]

/-- **C4.** `setForecast` replaces a location's entire forecast set inside a
single transaction (delete all existing rows for the location, then insert
the full new batch): on success the location's stored rows are exactly the
new batch, every other location's rows are untouched and no other table
changes; on any failure the transaction does not commit and the store — in
particular the previous complete forecast set — is left intact, so no mix of
old and new forecast rows for a location is ever visible. -/
theorem setForecast_atomic_replacement (s : Store) (locationId : String)
    (hours : List HourWeather) :
    ((setForecast s locationId hours).2 = none →
        (setForecast s locationId hours).1.forecast
          = s.forecast.filter (fun r => ¬ r.locationId = locationId)
            ++ hours.map (mkForecastRow locationId)
        ∧ forecastFor (setForecast s locationId hours).1 locationId
          = hours.map (mkForecastRow locationId)
        ∧ (∀ other, ¬ other = locationId →
            forecastFor (setForecast s locationId hours).1 other
              = forecastFor s other)
        ∧ (setForecast s locationId hours).1.history = s.history
        ∧ (setForecast s locationId hours).1.locations = s.locations)
    ∧ (∀ e, (setForecast s locationId hours).2 = some e →
        (setForecast s locationId hours).1 = s) := by
  have key : setForecast s locationId hours
      = (match insertForecastRows locationId hours
            (s.forecast.filter (fun r => ¬ r.locationId = locationId)) with
          | Except.ok f' => ({ s with forecast := f' }, none)
          | Except.error e => (s, some e)) := rfl
  cases hins : insertForecastRows locationId hours
      (s.forecast.filter (fun r => ¬ r.locationId = locationId)) with
  | error e0 =>
    rw [hins] at key
    rw [key]
    simp
  | ok f' =>
    rw [hins] at key
    obtain rfl := insertForecastRows_ok hours _ _ hins
    rw [key]
    refine ⟨fun _ => ⟨rfl, ?_, ?_, rfl, rfl⟩, by simp⟩
    · simp only [forecastFor]
      rw [List.filter_append]
      have h1 : (s.forecast.filter
          (fun r => ¬ r.locationId = locationId)).filter
          (fun r => r.locationId = locationId) = [] := by
        rw [List.filter_eq_nil_iff]
        intro r hr
        have hm := List.of_mem_filter hr
        simp only [decide_not, Bool.not_eq_true', decide_eq_false_iff_not]
          at hm
        simp [hm]
      have h2 : ((hours.map (mkForecastRow locationId)).filter
          (fun r => r.locationId = locationId))
          = hours.map (mkForecastRow locationId) := by
        rw [List.filter_eq_self]
        intro r hr
        obtain ⟨h0, _, rfl⟩ := List.mem_map.mp hr
        simp [mkForecastRow]
      rw [h1, h2, List.nil_append]
    · intro other hother
      simp only [forecastFor]
      rw [List.filter_append]
      have h1 : ((hours.map (mkForecastRow locationId)).filter
          (fun r => r.locationId = other)) = [] := by
        rw [List.filter_eq_nil_iff]
        intro r hr
        obtain ⟨h0, _, rfl⟩ := List.mem_map.mp hr
        simp only [mkForecastRow, decide_eq_true_eq]
        intro hco
        exact hother hco.symm
      have h2 : (s.forecast.filter
          (fun r => ¬ r.locationId = locationId)).filter
          (fun r => r.locationId = other)
          = s.forecast.filter (fun r => r.locationId = other) := by
        rw [List.filter_filter]
        refine List.filter_congr fun r _ => ?_
        by_cases hro : r.locationId = other
        · have : ¬ r.locationId = locationId := by
            rw [hro]
            exact fun hc => hother hc
          simp [hro, this, hother]
        · simp [hro]
      rw [h1, h2, List.append_nil]

/-- Witness for C4: a two-hour batch replaces the (empty) forecast set of
location `"3.00,3.00"` exactly, and a batch with a duplicated `dt` rolls the
store back unchanged. -/
theorem setForecast_atomic_replacement_witness :
    forecastFor (setForecast storeWithRow "3.00,3.00" [hourA, hourB]).1
      "3.00,3.00"
      = [mkForecastRow "3.00,3.00" hourA, mkForecastRow "3.00,3.00" hourB]
    ∧ (setForecast storeWithRow "3.00,3.00" [hourA, hourA]).1
      = storeWithRow := by
  constructor
  · exact ((setForecast_atomic_replacement storeWithRow "3.00,3.00"
      [hourA, hourB]).1 (by decide)).2.1
  · exact (setForecast_atomic_replacement storeWithRow "3.00,3.00"
      [hourA, hourA]).2 Err.uniqueViolation (by decide)

/-- **C5 (counterexample).** With two registered locations and a provider
that fails for the first one, `fetchAllHistory` aborts the whole batch at
the failing location: it returns the provider error with the store
unchanged, so location `B` — which a standalone sync of the same store
would give 48 rows — is not synchronized in that run. -/
theorem fetchAllHistory_abort_counterexample :
    fetchAllHistory owFailLatOne 360000 storeTwoLocs
      = (storeTwoLocs, some Err.providerError)
    ∧ (updateHistory owFailLatOne storeTwoLocs
        (toLocation storeTwoLocs locRowB) 360000).1.history.length = 48 := by
  constructor
  · decide
  · decide

/-- **C5 (amended).** A failure while synchronizing a location aborts the
remaining batch: when the first listed location's sync fails, the error
propagates out of `fetchAllHistory` at once, and the locations after it in
listing order are not synchronized in that run. -/
theorem fetchAllHistory_stops_at_first_failure
    (ow : OpenWeatherApi) (now : Int) (s : Store) (l₁ : Location)
    (rest : List Location) (s' : Store) (e : Err)
    (hlist : listLocations s = l₁ :: rest)
    (hfail : updateHistoryOpt ow now s l₁ (some (hourStart now))
      = (s', some e)) :
    fetchAllHistory ow now s = (s', some e) := by
  unfold fetchAllHistory
  rw [hlist]
  simp [fetchAllLoop, hfail]

/-- Witness for the amended C5 theorem at the two-location store with a
provider failing for the first location. -/
theorem fetchAllHistory_stops_at_first_failure_witness :
    fetchAllHistory owFailLatOne 360000 storeTwoLocs
      = (storeTwoLocs, some Err.providerError) :=
  fetchAllHistory_stops_at_first_failure owFailLatOne 360000 storeTwoLocs
    (toLocation storeTwoLocs locRowA) [toLocation storeTwoLocs locRowB]
    storeTwoLocs Err.providerError rfl (by decide)

/-- Rows surviving the transaction's delete never match the replaced
location again. -/
theorem forecast_deleted_filter_nil (s : Store) (locationId : String) :
    ((s.forecast.filter (fun r => ¬ r.locationId = locationId)).filter
      (fun r => r.locationId = locationId)) = [] := by
  rw [List.filter_eq_nil_iff]
  intro r hr
  have hm := List.of_mem_filter hr
  simp only [decide_not, Bool.not_eq_true', decide_eq_false_iff_not] at hm
  simp [hm]

/-- Every row built for the replaced location matches it. -/
theorem forecast_new_filter_self (locationId : String)
    (hours : List HourWeather) :
    ((hours.map (mkForecastRow locationId)).filter
      (fun r => r.locationId = locationId))
      = hours.map (mkForecastRow locationId) := by
  rw [List.filter_eq_self]
  intro r hr
  obtain ⟨h0, -, rfl⟩ := List.mem_map.mp hr
  simp [mkForecastRow]

/-- With pairwise-distinct hour timestamps and no pre-existing rows of the
replaced location in the transaction state, the batch insert succeeds. -/
theorem insertForecastRows_success (locationId : String) :
    ∀ (hours : List HourWeather) (f : List ForecastRow),
      (hours.map (fun h => h.dt)).Nodup →
      (∀ r ∈ f, r.locationId = locationId → ∀ h0 ∈ hours, ¬ r.time = h0.dt) →
      insertForecastRows locationId hours f
        = Except.ok (f ++ hours.map (mkForecastRow locationId)) := by
  intro hours
  induction hours with
  | nil =>
    intro f _ _
    simp [insertForecastRows]
  | cons hh rest ih =>
    intro f hnd hfree
    have hnd' : (rest.map (fun h => h.dt)).Nodup :=
      (List.nodup_cons.mp (by simpa using hnd)).2
    have hdt_not : hh.dt ∉ rest.map (fun h => h.dt) :=
      (List.nodup_cons.mp (by simpa using hnd)).1
    have hany : (f.any
        (fun r => r.locationId = locationId && r.time = hh.dt)) = false := by
      rw [List.any_eq_false]
      intro r hr
      simp only [Bool.and_eq_true, decide_eq_true_eq, not_and]
      intro hid
      exact hfree r hr hid hh (List.mem_cons_self hh rest)
    have hfree' : ∀ r ∈ (f ++ [mkForecastRow locationId hh]),
        r.locationId = locationId → ∀ h0 ∈ rest, ¬ r.time = h0.dt := by
      intro r hr hid h0 h0r
      rcases List.mem_append.mp hr with hold | hnew
      · exact hfree r hold hid h0 (List.mem_cons_of_mem hh h0r)
      · rcases List.mem_singleton.mp hnew with rfl
        simp only [mkForecastRow]
        intro hts
        exact hdt_not (hts ▸ List.mem_map.mpr ⟨h0, h0r, rfl⟩)
    simp only [insertForecastRows, hany, Bool.false_eq_true, if_false]
    rw [ih _ hnd' hfree']
    simp [List.append_assoc]

/-- With pairwise-distinct hour timestamps, `setForecast` commits: the new
forecast table is the other locations' rows followed by the new batch. -/
theorem setForecast_success (s : Store) (locationId : String)
    (hours : List HourWeather)
    (hnd : (hours.map (fun h => h.dt)).Nodup) :
    setForecast s locationId hours
      = ({ s with forecast := ((s.forecast.filter
            (fun r => ¬ r.locationId = locationId))
            ++ hours.map (mkForecastRow locationId)) }, none) := by
  have key : setForecast s locationId hours
      = (match insertForecastRows locationId hours
            (s.forecast.filter (fun r => ¬ r.locationId = locationId)) with
          | Except.ok f' => ({ s with forecast := f' }, none)
          | Except.error e => (s, some e)) := rfl
  rw [key, insertForecastRows_success locationId hours _ hnd ?_]
  intro r hr hid
  have hm := List.of_mem_filter hr
  simp only [decide_not, Bool.not_eq_true', decide_eq_false_iff_not] at hm
  exact absurd hid hm

/-- After a committed replacement, the derived `MIN(forecast_time)` for the
replaced location is the minimum of the new batch's hour timestamps. -/
theorem minForecastTime_after_set (s : Store) (locationId : String)
    (hours : List HourWeather)
    (hnd : (hours.map (fun h => h.dt)).Nodup) :
    minForecastTime (setForecast s locationId hours).1 locationId
      = (hours.map (fun h => h.dt)).min? := by
  rw [setForecast_success s locationId hours hnd]
  simp only [minForecastTime]
  rw [List.filter_append, forecast_deleted_filter_nil,
    forecast_new_filter_self, List.nil_append, List.map_map]
  refine congrArg _ (List.map_congr_left fun h0 _ => ?_)
  simp [mkForecastRow]

/-- **C3.** When every registered location has stored history (with positive
oldest times) and the provider succeeds, `backfillHistory(limit)` selects a
registered location whose oldest stored history timestamp is the most recent
across all locations (the least-backfilled one), then fetches and inserts
exactly `limit` rows, all for that one location, at timestamps strictly
decreasing by one hour each, starting one hour before that location's
previously-oldest known row. -/
theorem backfillHistory_targets_least_backfilled
    {ow : OpenWeatherApi} {w : Int → Weather} (s : Store) (limit : Nat)
    (hw : okHistoricalApi ow w)
    (hne : ¬ listLocations s = [])
    (hall : ∀ l ∈ listLocations s,
      ∃ d, getOldestForecast s l.id = some d ∧ 0 < d) :
    ∃ sel yd,
      sel ∈ listLocations s
      ∧ getOldestForecast s sel.id = some yd
      ∧ (∀ l ∈ listLocations s, ∀ d,
          getOldestForecast s l.id = some d → d ≤ yd)
      ∧ backfillHistory ow s limit
        = ({ s with history := (s.history
            ++ (descHourRange (yd - HOUR) limit).map
              (fun t => mkHistoryRow sel.id t (w t))) }, none)
      ∧ (descHourRange (yd - HOUR) limit).length = limit
      ∧ (∀ k : Nat, k < limit →
          (descHourRange (yd - HOUR) limit)[k]?
            = some (yd - HOUR * ((k : Int) + 1))) := by
  obtain ⟨sel, yd, heq, hdate, hdpos, hmax, -, hprov⟩ :=
    selectBackfill_spec s (listLocations s) none none hall
      (Or.inl ⟨rfl, rfl⟩) (fun h => absurd h hne)
  have hmem : sel ∈ listLocations s := by
    rcases hprov with h | h
    · exact h
    · exact absurd h (by simp)
  have hrowsgt : ∀ r ∈ s.history, r.locationId = sel.id →
      yd - HOUR < r.time := by
    intro r hr hid
    have hmin := (int_min?_eq_some_iff.mp hdate).2
    have hrt : r.time ∈ historyTimesFor s sel.id := by
      simp only [historyTimesFor, List.mem_map, List.mem_filter]
      exact ⟨r, ⟨hr, by simp [hid]⟩, rfl⟩
    have := hmin r.time hrt
    have h36 : (HOUR : Int) = 3600 := rfl
    omega
  have hloop := backfillLoop_spec sel hw limit s (yd - HOUR) hrowsgt
  refine ⟨sel, yd, hmem, hdate, hmax, ?_, descHourRange_length _ _, ?_⟩
  · unfold backfillHistory
    rw [heq]
    exact hloop
  · intro k hk
    rw [descHourRange_getElem _ _ _ hk]
    refine congrArg _ ?_
    ring

/-- Witness for C3 at a two-location store where `B`'s oldest row (`10800`)
is younger than `A`'s (`7200`): a backfill with `limit = 2` adds exactly two
rows and reports no error. -/
theorem backfillHistory_targets_least_backfilled_witness :
    (backfillHistory owZero storeBackfill 2).1.history.length = 4
    ∧ (backfillHistory owZero storeBackfill 2).2 = none := by
  have hall : ∀ l ∈ listLocations storeBackfill,
      ∃ d, getOldestForecast storeBackfill l.id = some d ∧ 0 < d := by
    intro l hl
    simp only [listLocations, storeBackfill, List.map_cons, List.map_nil,
      List.mem_cons, List.not_mem_nil, or_false] at hl
    rcases hl with rfl | rfl
    · exact ⟨7200, by decide, by decide⟩
    · exact ⟨10800, by decide, by decide⟩
  obtain ⟨sel, yd, hmem, hdate, hmax, heq, hlen, hpt⟩ :=
    @backfillHistory_targets_least_backfilled
      owZero (fun _ => zeroWeather) storeBackfill 2 (fun _ _ _ => rfl)
      (by decide) hall
  rw [heq]
  refine ⟨?_, rfl⟩
  simp [storeBackfill, hlen]

/-- The single-pass accumulation of `_summarizeWeatherHistory` computes, for
each of the three cutoffs independently, the filter-and-sum of the scanned
rows. -/
theorem windowRain_cons (r : LocationWeather) (rest : List LocationWeather)
    (c : Int) :
    windowRain (r :: rest) c
      = (if c < r.time then r.rain else 0) + windowRain rest c := by
  by_cases h : c < r.time <;> simp [windowRain, List.filter_cons, h]

theorem windowSnow_cons (r : LocationWeather) (rest : List LocationWeather)
    (c : Int) :
    windowSnow (r :: rest) c
      = (if c < r.time then r.snow else 0) + windowSnow rest c := by
  by_cases h : c < r.time <;> simp [windowSnow, List.filter_cons, h]

theorem foldl_summarizeStep (d wk m : Int) :
    ∀ (rows : List LocationWeather) (acc : SummaryAcc),
      rows.foldl (summarizeStep d wk m) acc
        = { rain := { day := acc.rain.day + windowRain rows d
                      week := acc.rain.week + windowRain rows wk
                      month := acc.rain.month + windowRain rows m }
            snow := { day := acc.snow.day + windowSnow rows d
                      week := acc.snow.week + windowSnow rows wk
                      month := acc.snow.month + windowSnow rows m } } := by
  intro rows
  induction rows with
  | nil =>
    intro acc
    obtain ⟨⟨rd, rw0, rm⟩, ⟨sd, sw, sm⟩⟩ := acc
    simp [windowRain, windowSnow]
  | cons r rest ih =>
    intro acc
    rw [List.foldl_cons, ih]
    obtain ⟨⟨rd, rw0, rm⟩, ⟨sd, sw, sm⟩⟩ := acc
    rw [windowRain_cons, windowRain_cons, windowRain_cons,
      windowSnow_cons, windowSnow_cons, windowSnow_cons]
    simp only [summarizeStep]
    by_cases h1 : d < r.time <;> by_cases h2 : wk < r.time <;>
      by_cases h3 : m < r.time <;>
      simp only [h1, h2, h3, if_true, if_false, ite_true, ite_false,
        SummaryAcc.mk.injEq, PrecipitationTotals.mk.injEq] <;>
      refine ⟨⟨by ring, by ring, by ring⟩, by ring, by ring, by ring⟩

/-- Success-path characterization of `_summarizeWeatherHistory`: after the
(successful) in-line synchronization, the response carries the three
filter-and-sum rolling windows over the rows scanned from four weeks back,
with the `rain` / `snow` keys present only when the month total is truthy. -/
theorem summarizeWeatherHistory_spec (ow : OpenWeatherApi) (now : Int)
    (s : Store) (loc : Location) (s2 : Store)
    (hok : updateHistoryOpt ow now s loc none = (s2, none)) :
    summarizeWeatherHistory ow now s loc
      = (s2, Except.ok
          { location := loc
            rain :=
              if jsTruthyQ (windowRain
                  (listWeather s2 loc.id (now - 2419200)) (now - 2419200))
              then some
                { day := windowRain
                    (listWeather s2 loc.id (now - 2419200)) (now - 86400)
                  week := windowRain
                    (listWeather s2 loc.id (now - 2419200)) (now - 604800)
                  month := windowRain
                    (listWeather s2 loc.id (now - 2419200)) (now - 2419200) }
              else none
            snow :=
              if jsTruthyQ (windowSnow
                  (listWeather s2 loc.id (now - 2419200)) (now - 2419200))
              then some
                { day := windowSnow
                    (listWeather s2 loc.id (now - 2419200)) (now - 86400)
                  week := windowSnow
                    (listWeather s2 loc.id (now - 2419200)) (now - 604800)
                  month := windowSnow
                    (listWeather s2 loc.id (now - 2419200)) (now - 2419200) }
              else none
            forecast := none }) := by
  unfold summarizeWeatherHistory
  rw [hok]
  simp only [foldl_summarizeStep]
  simp

/-- **C6.** For every location whose `oldestForecastTime` is newer than two
hours before the current time, the forecast refresh performs no provider
fetch and no store write (it is a no-op); otherwise it calls the provider's
forecast lookup and, when hourly data is present (with distinct hour
timestamps), replaces the stored forecast with it.  Consequently, when the
refresh is re-run within two hours — so the freshly stored hours are still
newer than two hours before the second instant — with the re-derived
`oldestForecastTime`, the second call performs no fetch: across the two
calls the provider is consulted exactly once. -/
theorem updateForecast_staleness_gate (ow : OpenWeatherApi) (s : Store)
    (loc : Location) (now : Int) :
    (∀ t, loc.oldestForecastTime = some t → now - 7200 < t →
      updateForecast ow s loc now
        = { store := s, fetched := false, err := none })
    ∧ (¬ jsGtOpt loc.oldestForecastTime (now - 2 * HOUR) = true →
        (updateForecast ow s loc now).fetched = true
        ∧ (∀ hs, ow.getForecast loc.lat loc.lon
              = Except.ok { hourly := some hs } →
            (hs.map (fun h => h.dt)).Nodup →
            forecastFor (updateForecast ow s loc now).store loc.id
              = hs.map (mkForecastRow loc.id)))
    ∧ (∀ (hs : List HourWeather) (now2 : Int),
        ¬ jsGtOpt loc.oldestForecastTime (now - 2 * HOUR) = true →
        ow.getForecast loc.lat loc.lon = Except.ok { hourly := some hs } →
        (hs.map (fun h => h.dt)).Nodup →
        ¬ hs = [] →
        (∀ h0 ∈ hs, now2 - 7200 < h0.dt) →
        ∀ loc2 : Location, loc2.id = loc.id →
          loc2.oldestForecastTime
            = minForecastTime (updateForecast ow s loc now).store loc.id →
          (updateForecast ow s loc now).fetched = true
          ∧ updateForecast ow (updateForecast ow s loc now).store loc2 now2
            = { store := (updateForecast ow s loc now).store,
                fetched := false, err := none }) := by
  have h36 : (HOUR : Int) = 3600 := rfl
  refine ⟨?_, ?_, ?_⟩
  · intro t ht h2
    unfold updateForecast
    rw [ht]
    have hgt : jsGtOpt (some t) (now - 2 * HOUR) = true := by
      simp only [jsGtOpt, decide_eq_true_eq]
      omega
    rw [if_pos hgt]
  · intro hg
    have hneg := hg
    constructor
    · unfold updateForecast
      rw [if_neg hneg]
      cases ow.getForecast loc.lat loc.lon with
      | error e => rfl
      | ok fc =>
        obtain ⟨hourly⟩ := fc
        cases hourly with
        | none => rfl
        | some hs => rfl
    · intro hs hfc hnd
      have hrun : updateForecast ow s loc now
          = { store := (setForecast s loc.id hs).1, fetched := true,
              err := (setForecast s loc.id hs).2 } := by
        unfold updateForecast
        rw [if_neg hneg, hfc]
      rw [hrun, setForecast_success s loc.id hs hnd]
      show ((s.forecast.filter (fun r => ¬ r.locationId = loc.id))
          ++ hs.map (mkForecastRow loc.id)).filter
          (fun r => r.locationId = loc.id) = _
      rw [List.filter_append, forecast_deleted_filter_nil,
        forecast_new_filter_self, List.nil_append]
  · intro hs now2 hg hfc hnd hne hrecent loc2 hid2 hofc2
    have hrun : updateForecast ow s loc now
        = { store := (setForecast s loc.id hs).1, fetched := true,
            err := (setForecast s loc.id hs).2 } := by
      unfold updateForecast
      rw [if_neg hg, hfc]
    refine ⟨by rw [hrun], ?_⟩
    have hmin : minForecastTime (updateForecast ow s loc now).store loc.id
        = (hs.map (fun h => h.dt)).min? := by
      rw [hrun]
      exact minForecastTime_after_set s loc.id hs hnd
    obtain ⟨m, hm⟩ : ∃ m, (hs.map (fun h => h.dt)).min? = some m := by
      cases hhs : hs with
      | nil => exact absurd hhs hne
      | cons a l => exact ⟨_, rfl⟩
    have hmmem : m ∈ hs.map (fun h => h.dt) := (int_min?_eq_some_iff.mp hm).1
    have hmgt : now2 - 7200 < m := by
      obtain ⟨h0, h0mem, rfl⟩ := List.mem_map.mp hmmem
      exact hrecent h0 h0mem
    have hofc : loc2.oldestForecastTime = some m := by
      rw [hofc2, hmin, hm]
    unfold updateForecast
    rw [hofc]
    have hgt : jsGtOpt (some m) (now2 - 2 * HOUR) = true := by
      simp only [jsGtOpt, decide_eq_true_eq]
      omega
    rw [if_pos hgt]

/-- **C7.** `summarizeHistory` scans the stored history rows from 4 weeks
ago once and computes nested rolling rain and snow sums with three
independent cutoffs: each window total is the sum over the scanned rows
strictly newer than that window's cutoff, so a row within the last day
counts toward the day, week and month totals, a row within the last week
toward week and month, and a row within the last month toward month only
(the cutoffs are nested). -/
theorem summarizeHistory_nested_window_sums (ow : OpenWeatherApi)
    (now : Int) (s : Store) (loc : Location) (s2 : Store)
    (hok : updateHistoryOpt ow now s loc none = (s2, none)) :
    summarizeWeatherHistory ow now s loc
      = (s2, Except.ok
          { location := loc
            rain :=
              if jsTruthyQ (windowRain
                  (listWeather s2 loc.id (now - 2419200)) (now - 2419200))
              then some
                { day := windowRain
                    (listWeather s2 loc.id (now - 2419200)) (now - 86400)
                  week := windowRain
                    (listWeather s2 loc.id (now - 2419200)) (now - 604800)
                  month := windowRain
                    (listWeather s2 loc.id (now - 2419200)) (now - 2419200) }
              else none
            snow :=
              if jsTruthyQ (windowSnow
                  (listWeather s2 loc.id (now - 2419200)) (now - 2419200))
              then some
                { day := windowSnow
                    (listWeather s2 loc.id (now - 2419200)) (now - 86400)
                  week := windowSnow
                    (listWeather s2 loc.id (now - 2419200)) (now - 604800)
                  month := windowSnow
                    (listWeather s2 loc.id (now - 2419200)) (now - 2419200) }
              else none
            forecast := none })
    ∧ (∀ row ∈ listWeather s2 loc.id (now - 2419200),
        (now - 86400 < row.time →
          now - 604800 < row.time ∧ now - 2419200 < row.time)
        ∧ (now - 604800 < row.time → now - 2419200 < row.time)) :=
  ⟨summarizeWeatherHistory_spec ow now s loc s2 hok,
    fun _ _ => ⟨fun h => ⟨by omega, by omega⟩, fun h => by omega⟩⟩

/-- Witness for C7, the specification's example: rows at `now - 12h`
(rain 5), `now - 5d` (rain 3) and `now - 20d` (rain 2) summarize to
`rain = {day 5, week 8, month 10}` (and no snow key). -/
theorem summarizeHistory_nested_window_sums_witness :
    (summarizeWeatherHistory owZero 4838400 storeRain locRaining).2
      = Except.ok respRain := by
  have h := (summarizeHistory_nested_window_sums owZero 4838400 storeRain
    locRaining storeRain (by decide)).1
  rw [h]
  simp only [respRain]
  norm_num [listWeather, storeRain, locRaining, mkHistoryRow, rainW,
    zeroWeather, windowRain, windowSnow, jsTruthyQ]

/-- **C9.** `summarizeHistory` omits the `rain` field entirely exactly when
the month rain total is 0, and likewise the `snow` field when the month snow
total is 0; a nonzero month total makes the field present, carrying all
three window totals. -/
theorem summarizeHistory_omits_zero_month_totals (ow : OpenWeatherApi)
    (now : Int) (s : Store) (loc : Location) (s2 : Store)
    (hok : updateHistoryOpt ow now s loc none = (s2, none)) :
    ∀ resp, (summarizeWeatherHistory ow now s loc).2 = Except.ok resp →
      (resp.rain = none ↔ windowRain
        (listWeather s2 loc.id (now - 2419200)) (now - 2419200) = 0)
      ∧ (¬ windowRain (listWeather s2 loc.id (now - 2419200))
            (now - 2419200) = 0 →
          resp.rain = some
            { day := windowRain
                (listWeather s2 loc.id (now - 2419200)) (now - 86400)
              week := windowRain
                (listWeather s2 loc.id (now - 2419200)) (now - 604800)
              month := windowRain
                (listWeather s2 loc.id (now - 2419200)) (now - 2419200) })
      ∧ (resp.snow = none ↔ windowSnow
          (listWeather s2 loc.id (now - 2419200)) (now - 2419200) = 0)
      ∧ (¬ windowSnow (listWeather s2 loc.id (now - 2419200))
            (now - 2419200) = 0 →
          resp.snow = some
            { day := windowSnow
                (listWeather s2 loc.id (now - 2419200)) (now - 86400)
              week := windowSnow
                (listWeather s2 loc.id (now - 2419200)) (now - 604800)
              month := windowSnow
                (listWeather s2 loc.id (now - 2419200)) (now - 2419200) }) := by
  intro resp hresp
  rw [summarizeWeatherHistory_spec ow now s loc s2 hok] at hresp
  simp only [Except.ok.injEq] at hresp
  subst hresp
  constructor
  · by_cases hr : windowRain
        (listWeather s2 loc.id (now - 2419200)) (now - 2419200) = 0 <;>
      simp [jsTruthyQ, hr]
  constructor
  · intro hr
    simp [jsTruthyQ, hr]
  constructor
  · by_cases hsn : windowSnow
        (listWeather s2 loc.id (now - 2419200)) (now - 2419200) = 0 <;>
      simp [jsTruthyQ, hsn]
  · intro hsn
    simp [jsTruthyQ, hsn]

/-- Witness for C9 on the example store: the rain key is present with all
three totals (nonzero month rain) and the snow key is absent (zero month
snow). -/
theorem summarizeHistory_omits_zero_month_totals_witness :
    respRain.rain = some { day := 5, week := 8, month := 10 }
    ∧ respRain.snow = none := by
  have hresp : (summarizeWeatherHistory owZero 4838400 storeRain
      locRaining).2 = Except.ok respRain := by
    rw [summarizeWeatherHistory_spec owZero 4838400 storeRain locRaining
      storeRain (by decide)]
    simp only [respRain]
    norm_num [listWeather, storeRain, locRaining, mkHistoryRow, rainW,
      zeroWeather, windowRain, windowSnow, jsTruthyQ]
  have h := summarizeHistory_omits_zero_month_totals owZero 4838400 storeRain
    locRaining storeRain (by decide) respRain hresp
  refine ⟨(h.2.1 ?_).trans ?_, h.2.2.1.mpr ?_⟩
  · norm_num [listWeather, storeRain, locRaining, mkHistoryRow, rainW,
      zeroWeather, windowRain]
  · norm_num [listWeather, storeRain, locRaining, mkHistoryRow, rainW,
      zeroWeather, windowRain]
  · norm_num [listWeather, storeRain, locRaining, mkHistoryRow, rainW,
      zeroWeather, windowSnow]

/-- **C8.** The proximity search's bad-weather filter uses
strictly-greater-than thresholds: `badWeatherHistory` — the predicate
`_whereToGo` uses to discard a candidate that survived the distance check —
is true exactly when the summary's day rain exceeds 10 mm, or its day snow
exceeds 10 mm, or its week snow exceeds 100 mm; in particular a candidate at
exactly 10 mm last-day rain is kept and one at 11 mm is discarded. -/
theorem badWeatherHistory_strict_thresholds :
    (∀ resp : LocationResponse,
      badWeatherHistory resp = true ↔
        ((∃ r, resp.rain = some r ∧ 10 < r.day)
          ∨ (∃ sn, resp.snow = some sn ∧ (10 < sn.day ∨ 100 < sn.week))))
    ∧ badWeatherHistory
        { location := locRaining
          rain := some { day := 10, week := 10, month := 10 }
          snow := none, forecast := none } = false
    ∧ badWeatherHistory
        { location := locRaining
          rain := some { day := 11, week := 11, month := 11 }
          snow := none, forecast := none } = true := by
  refine ⟨?_, ?_, ?_⟩
  · intro resp
    obtain ⟨loc0, rain0, snow0, fc0⟩ := resp
    cases rain0 <;> cases snow0 <;>
      simp [badWeatherHistory, jsGtOptQ]
  · norm_num [badWeatherHistory, jsGtOptQ]
  · norm_num [badWeatherHistory, jsGtOptQ]

/-- **C10.** A candidate location whose history summary has both the rain
and snow fields absent (no recorded precipitation in the last 4 weeks) is
never excluded by the proximity search's bad-weather filter:
`badWeatherHistory` returns false whenever both summary fields are missing,
so such locations always pass the weather filter. -/
theorem badWeatherHistory_false_of_no_summary :
    ∀ (loc0 : Location) (fc : Option ForecastSummary),
      badWeatherHistory
        { location := loc0, rain := none, snow := none, forecast := fc }
        = false := by
  intro loc0 fc
  rfl

/-- Witness for C6: a location with no stored forecast fetches and stores
`[hourA, hourB]` at `now = 7000`; re-running at the same instant with the
re-derived `oldestForecastTime = 100` does not fetch again. -/
theorem updateForecast_staleness_gate_witness :
    (updateForecast owForecast storeWithRow
      (toLocation storeWithRow locRowC) 7000).fetched = true
    ∧ updateForecast owForecast
        (updateForecast owForecast storeWithRow
          (toLocation storeWithRow locRowC) 7000).store
        locAfterForecast 7000
      = { store := (updateForecast owForecast storeWithRow
            (toLocation storeWithRow locRowC) 7000).store,
          fetched := false, err := none } :=
  (updateForecast_staleness_gate owForecast storeWithRow
    (toLocation storeWithRow locRowC) 7000).2.2
    [hourA, hourB] 7000 (by decide) rfl (by decide) (by decide)
    (by decide) locAfterForecast (by decide) (by decide)

end Becky
